import Mathlib

/-!
Shallow embedding of `lazyllm/module/onlineChatModule/openaiModule.py`
(class `OpenAIModule`): the fine-tuning lifecycle operations
`_convert_file_format`, `_upload_train_file`, `_create_finetuning_job`,
`_query_finetuning_job`, `_create_deployment`, `_query_deployment`.

Modelling conventions:
* JSON values are the inductive `Json` below; Python `dict`s are ordered
  association lists (as parsed JSON objects are), Python `None` is `Json.null`.
* `json.loads` is the Python standard library (external collaborator); an
  input line is therefore represented by its parse result `Option Json`
  (`none` = `json.loads` raises `json.JSONDecodeError`).  The decode error of
  the standard library carries only the position inside the single parsed
  string (each line is parsed separately), never the file line number, so the
  embedded error `PyError.jsonDecodeError` carries no line information.
* `json.dumps(..., ensure_ascii=False)` followed by `"\n".join` is an
  injective serialization of the produced record list; the converter is
  embedded at record granularity (`List Json`), one element per emitted line.
* Fallible Python code becomes `Except PyError`; the distinct Python
  exception kinds reachable in these functions are the constructors of
  `PyError`.
* An HTTP response is the triple the code consumes: `status_code`,
  the chunks yielded by `r.iter_content(None)`, and the parse result of the
  body used by `r.json()` (`none` = `r.json()` raises a decode error).
-/

namespace OpenAIModule

/-- A JSON value as Python's `json` module produces it: objects are ordered
key/value lists (Python dicts preserve insertion order), `null` is Python
`None`. -/
inductive Json where
  | null : Json
  | bool : Bool → Json
  | num : Int → Json
  | str : String → Json
  | arr : List Json → Json
  | obj : List (String × Json) → Json

/-- The Python exceptions reachable in the embedded functions. -/
inductive PyError where
  | jsonDecodeError : PyError
  | attributeError : PyError
  | typeError : PyError
  | keyError : String → PyError
  | requestException : String → PyError
deriving DecidableEq

/-- Field lookup in a JSON value: the value under `key` when the value is an
object that has the key, `none` otherwise (first occurrence, as Python dicts
have unique keys). -/
def findField (j : Json) (key : String) : Option Json :=
  match j with
  | .obj fields => (fields.find? (fun kv => kv.1 == key)).map (fun kv => kv.2)
  | _ => none

/-- Python `x.get(key, default)`: defined for dicts, raises `AttributeError`
on every non-dict value (`'int' object has no attribute 'get'`, ...). -/
def pyGet (j : Json) (key : String) (dflt : Json) : Except PyError Json :=
  match j with
  | .obj _ => .ok ((findField j key).getD dflt)
  | _ => .error .attributeError

/-- Python `x[key]` for a string key: the value when `x` is a dict holding
`key`, `KeyError` when the dict lacks it, `TypeError` on non-dicts. -/
def pyIndex (j : Json) (key : String) : Except PyError Json :=
  match j with
  | .obj _ =>
    match findField j key with
    | some v => .ok v
    | none => .error (.keyError key)
  | _ => .error .typeError

/-- Python `for x in v`: lists iterate their elements, strings their
characters (one-character strings), dicts their keys; `None`, booleans and
numbers raise `TypeError: not iterable`. -/
def pyIter (j : Json) : Except PyError (List Json) :=
  match j with
  | .arr elems => .ok elems
  | .str s => .ok (s.toList.map (fun c => .str (String.singleton c)))
  | .obj fields => .ok (fields.map (fun kv => .str kv.1))
  | _ => .error .typeError

/-! ## `_convert_file_format` (openaiModule.py lines 32-48) -/

/-- The membership test `role in ["system", "user", "assistant"]` (a JSON
value equals one of these Python strings only when it is that string). -/
def recognizedRole (s : String) : Bool :=
  s == "system" || s == "user" || s == "assistant"

/-- Body of the message loop: `role = message.get("role", "")`,
`content = message.get("content", "")`, and the message is kept, rebuilt as
`{"role": role, "content": content}`, exactly when
`role in ["system", "user", "assistant"]`.  `some m` = appended message,
`none` = silently dropped. -/
def processMessage (message : Json) : Except PyError (Option Json) := do
  let role ← pyGet message "role" (.str "")
  let content ← pyGet message "content" (.str "")
  match role with
  | .str s =>
    if recognizedRole s then
      pure (some (.obj [("role", .str s), ("content", content)]))
    else
      pure none
  | _ => pure none

/-- The `for message in messages` loop: processes messages left to right,
collecting the kept ones in order; the first raised exception aborts. -/
def processMessages : List Json → Except PyError (List Json)
  | [] => .ok []
  | m :: rest => do
    let kept ← processMessage m
    let tail ← processMessages rest
    match kept with
    | some mm => pure (mm :: tail)
    | none => pure tail

/-- One iteration of the record loop: `messages = ex.get("messages", [])`,
filter the messages, assemble `{"messages": [...]}`. -/
def processRecord (ex : Json) : Except PyError Json := do
  let messagesVal ← pyGet ex "messages" (.arr [])
  let messages ← pyIter messagesVal
  let kept ← processMessages messages
  pure (.obj [("messages", .arr kept)])

/-- The `for ex in dataset` loop over the already-parsed records. -/
def convertRecords : List Json → Except PyError (List Json)
  | [] => .ok []
  | ex :: rest => do
    let r ← processRecord ex
    let tail ← convertRecords rest
    pure (r :: tail)

/-- `dataset = [json.loads(line) for line in fr]`: the whole file is parsed
line by line before any record is processed; the first malformed line raises
`json.JSONDecodeError` and aborts the comprehension. -/
def loadDataset : List (Option Json) → Except PyError (List Json)
  | [] => .ok []
  | some j :: rest => do
    let tail ← loadDataset rest
    pure (j :: tail)
  | none :: _ => .error .jsonDecodeError

/-- `_convert_file_format`: parse every line, then rewrite every record.
The input is the list of lines, each given by its `json.loads` result; the
output is the list of converted records, one per emitted output line (the
source serializes them with `json.dumps` and joins with `"\n"`). -/
def convert_file_format (lines : List (Option Json)) : Except PyError (List Json) := do
  let dataset ← loadDataset lines
  convertRecords dataset

/-! ## HTTP operations (openaiModule.py lines 94-154) -/

/-- What the code consumes from an HTTP response: `status_code`, the body
chunks yielded by `r.iter_content(None)`, and the JSON parse result of the
body used by `r.json()` (`none` = `r.json()` raises). -/
structure HttpResponse where
  status_code : Nat
  chunks : List String
  jsonBody : Option Json

/-- The message of the exception raised on a non-success status:
`'\n'.join([c.decode('utf-8') for c in r.iter_content(None)])`. -/
def joinedBody (r : HttpResponse) : String :=
  String.intercalate "\n" r.chunks

/-- `r.json()`. -/
def rjson (r : HttpResponse) : Except PyError Json :=
  match r.jsonBody with
  | some j => .ok j
  | none => .error .jsonDecodeError

/-- Python `s.lower()`, character by character.  The statuses the code
compares are ASCII, on which Python's `lower` and `Char.toLower` agree. -/
def pyLower (s : String) : String :=
  String.mk (s.data.map Char.toLower)

/-- `_upload_train_file`, from the point the response `r` is available.
Besides the result it returns whether `self._dataHandler` was closed:
on `status_code != 200` the code raises before the `close()` call; on 200 it
closes the handler first and only then reads `r.json()["id"]`. -/
def upload_train_file (r : HttpResponse) : Except PyError Json × Bool :=
  if r.status_code = 200 then
    ((do
        let j ← rjson r
        pyIndex j "id"), true)
  else
    (.error (.requestException (joinedBody r)), false)

/-- `_create_finetuning_job`, from the point the response `r` is available:
raise on `status_code != 200`, otherwise return
`(r.json()["id"], r.json()["status"])`. -/
def create_finetuning_job (r : HttpResponse) : Except PyError (Json × Json) :=
  if r.status_code = 200 then do
    let j ← rjson r
    let fine_tuning_job_id ← pyIndex j "id"
    let j2 ← rjson r
    let status ← pyIndex j2 "status"
    pure (fine_tuning_job_id, status)
  else
    .error (.requestException (joinedBody r))

/-- `_query_finetuning_job`, from the point the response `r` is available:
raise on `status_code != 200`; read `status = r.json()['status']`
(`status.lower()` raises `AttributeError` on a non-string); when the status
lowercases to "succeeded" read `fine_tuned_model = r.json()["fine_tuned_model"]`,
otherwise leave it `None`; return `(fine_tuned_model, status)`. -/
def query_finetuning_job (r : HttpResponse) : Except PyError (Json × Json) :=
  if r.status_code = 200 then do
    let j ← rjson r
    let statusV ← pyIndex j "status"
    match statusV with
    | .str s =>
      if pyLower s == "succeeded" then do
        let j2 ← rjson r
        let fine_tuned_model ← pyIndex j2 "fine_tuned_model"
        pure (fine_tuned_model, .str s)
      else
        pure (.null, .str s)
    | _ => .error .attributeError
  else
    .error (.requestException (joinedBody r))

/-! ## Deployment stub (openaiModule.py lines 156-166) -/

/-- `_create_deployment`: returns `(self._model_name, "RUNNING")`; the
module's `_model_name` is the argument. -/
def create_deployment (model_name : String) : String × String :=
  (model_name, "RUNNING")

/-- `_query_deployment`: returns `"RUNNING"` for every `deployment_id`
(the argument is ignored by the source). -/
def query_deployment (deployment_id : String) : String :=
  "RUNNING"

/-! ## Claim-level descriptions

Definitions written from the claims' words, to be compared with the embedded
code above. -/

/-- Whether a JSON value is an object (a Python dict). -/
def isObj : Json → Bool
  | .obj _ => true
  | _ => false

/-- An input line in the shape the conversion's happy path expects: it
parses to a JSON object whose `messages` field, when present, is an array of
objects. -/
def goodLine : Option Json → Bool
  | some j =>
    isObj j &&
      (match findField j "messages" with
       | none => true
       | some (.arr msgs) => msgs.all isObj
       | some _ => false)
  | none => false

/-- The messages array of a record (absent field = empty list), as the
claims describe it. -/
def messagesOf (j : Json) : List Json :=
  match findField j "messages" with
  | some (.arr msgs) => msgs
  | _ => []

/-- Claim-level description of what becomes of one message: kept — projected
to its `role` and `content` fields (missing `content` read as `""`) — exactly
when its `role` value is a recognized role string, dropped otherwise. -/
def keptMessage (m : Json) : Option Json :=
  match findField m "role" with
  | some (.str s) =>
    if recognizedRole s then
      some (.obj [("role", .str s), ("content", (findField m "content").getD (.str ""))])
    else none
  | _ => none

/-- Claim-level description of one converted record: the record's messages,
filtered and projected by `keptMessage`, in their original order. -/
def convertedRecord (l : Option Json) : Json :=
  match l with
  | some j => .obj [("messages", .arr ((messagesOf j).filterMap keptMessage))]
  | none => .obj [("messages", .arr [])]

/-- A well-formed message in the claims' sense: exactly a
`{"role": r, "content": c}` pair with a recognized role. -/
def wfMessage : Json → Bool
  | .obj [("role", .str r), ("content", _)] => recognizedRole r
  | _ => false

/-- A well-formed record in the claims' sense: exactly a
`{"messages": [...]}` object whose messages are all well formed. -/
def wfRecord : Json → Bool
  | .obj [("messages", .arr msgs)] => msgs.all wfMessage
  | _ => false

/-- A well-formed dataset: every record well formed. -/
def wfDataset (ds : List Json) : Bool :=
  ds.all wfRecord

/-- Field lookup through a response's JSON body (`none` when the body does
not parse or lacks the field). -/
def bodyField (r : HttpResponse) (key : String) : Option Json :=
  match r.jsonBody with
  | some j => findField j key
  | none => none

/-! ## Helper lemmas -/

/-- Reduction of `Except` pure. -/
theorem pure_eq_ok {ε α : Type} (a : α) : (pure a : Except ε α) = .ok a := rfl

/-- Reduction of `Except` bind on a success value. -/
theorem ok_bind {ε α β : Type} (a : α) (f : α → Except ε β) :
    (Except.ok a : Except ε α) >>= f = f a := rfl

/-- Reduction of `Except` bind on an error value. -/
theorem error_bind {ε α β : Type} (e : ε) (f : α → Except ε β) :
    (Except.error e : Except ε α) >>= f = .error e := rfl

/-- A value with a found field is an object. -/
theorem findField_isObj {j : Json} {k : String} {v : Json}
    (h : findField j k = some v) : ∃ fields, j = .obj fields := by
  cases j <;> first
    | exact ⟨_, rfl⟩
    | simp [findField] at h

/-- `x[key]` succeeds exactly on the values whose field lookup does. -/
theorem pyIndex_eq_ok {j : Json} {k : String} {v : Json} :
    pyIndex j k = .ok v ↔ findField j k = some v := by
  cases j with
  | obj fields => cases h : findField (.obj fields) k <;> simp [pyIndex, h]
  | null => simp [pyIndex, findField]
  | bool b => simp [pyIndex, findField]
  | num n => simp [pyIndex, findField]
  | str s => simp [pyIndex, findField]
  | arr l => simp [pyIndex, findField]

/-! ## Theorems for the claims -/

/-- C8: the deployment stub never fails and has no side effects:
`_create_deployment` returns `(model_name, "RUNNING")` for every model name
and `_query_deployment` returns `"RUNNING"` for every deployment identifier;
both are pure total functions. -/
theorem c8_deployment_stub (m d : String) :
    create_deployment m = (m, "RUNNING") ∧ query_deployment d = "RUNNING" :=
  ⟨rfl, rfl⟩

/-- C10: in the conversion's message loop, a message object with no `role`
key gets role `""` and is therefore dropped without error, and a message
object with a recognized role but no `content` key is kept with content `""`
without error. -/
theorem c10_missing_keys (fields : List (String × Json)) (r : String)
    (hrec : recognizedRole r = true) :
    (findField (.obj fields) "role" = none →
      processMessage (.obj fields) = .ok none) ∧
    (findField (.obj fields) "role" = some (.str r) →
      findField (.obj fields) "content" = none →
      processMessage (.obj fields) = .ok
        (some (.obj [("role", .str r), ("content", .str "")]))) := by
  constructor
  · intro h
    simp [processMessage, pyGet, h, ok_bind, pure_eq_ok, recognizedRole]
  · intro h hc
    simp [processMessage, pyGet, h, hc, ok_bind, pure_eq_ok, hrec]

/-- C10 witness: a message with only `content` is dropped; a `user` message
with no `content` is kept with empty content. -/
theorem c10_witness :
    processMessage (.obj [("content", .str "X")]) = .ok none ∧
    processMessage (.obj [("role", .str "user")]) =
      .ok (some (.obj [("role", .str "user"), ("content", .str "")])) :=
  ⟨(c10_missing_keys [("content", .str "X")] "user" rfl).1 rfl,
   (c10_missing_keys [("role", .str "user")] "user" rfl).2 rfl rfl⟩

/-- C9: on an HTTP-200 query response whose status lowercases to
"succeeded" but whose body has no `fine_tuned_model` key, the query raises
(`KeyError`) instead of returning a pair. -/
theorem c9_succeeded_missing_model_raises (r : HttpResponse) (j : Json) (s : String)
    (hstatus : r.status_code = 200) (hbody : r.jsonBody = some j)
    (hs : findField j "status" = some (.str s))
    (hlow : pyLower s = "succeeded")
    (hm : findField j "fine_tuned_model" = none) :
    query_finetuning_job r = .error (.keyError "fine_tuned_model") := by
  obtain ⟨fields, rfl⟩ := findField_isObj hs
  simp [query_finetuning_job, hstatus, rjson, hbody, pyIndex, hs, hlow, hm, ok_bind, error_bind, pure_eq_ok]

/-- C9 witness: a 200 response with status "Succeeded" (case-insensitive
match) and no `fine_tuned_model` field makes the query raise. -/
theorem c9_witness :
    query_finetuning_job ⟨200, [""], some (.obj [("status", .str "Succeeded")])⟩ =
      .error (.keyError "fine_tuned_model") :=
  c9_succeeded_missing_model_raises _ (.obj [("status", .str "Succeeded")])
    "Succeeded" rfl rfl rfl rfl rfl

/-- C1 counterexample: on a non-success (400) response `_upload_train_file`
raises without reaching the `close()` call, so the transient data handler is
not released on the failure path (closed flag `false`). -/
theorem c1_counterexample :
    upload_train_file ⟨400, ["bad request"], some (.obj [("id", .str "file-123")])⟩ =
      (.error (.requestException "bad request"), false) := rfl

/-- C1 amended: the data handler is closed exactly on the `status_code = 200`
path — there before the body is even read, so also when id extraction then
fails — while on any other status the exception is raised first and the
handler is left open. -/
theorem c1_close_on_success_only (r : HttpResponse) :
    (r.status_code = 200 → (upload_train_file r).2 = true) ∧
    (r.status_code ≠ 200 → (upload_train_file r).2 = false) := by
  constructor <;> intro h <;> simp [upload_train_file, h]

/-- C1 witness: the handler is closed on a 200 response and left open on a
500 response. -/
theorem c1_witness :
    (upload_train_file ⟨200, ["x"], some (.obj [("id", .str "f")])⟩).2 = true ∧
    (upload_train_file ⟨500, ["err"], none⟩).2 = false :=
  ⟨(c1_close_on_success_only _).1 rfl, (c1_close_on_success_only _).2 (by decide)⟩

/-- C2 counterexample: a 202 response — a 200-class success status — to the
upload request still raises the full-body error, because the code tests
`status_code != 200`, not "non-success". -/
theorem c2_counterexample :
    upload_train_file ⟨202, ["accepted"], some (.obj [("id", .str "file-1")])⟩ =
      (.error (.requestException "accepted"), false) := rfl

/-- On a 200 response the upload path never raises the full-body
request exception: its errors are decode or key errors. -/
theorem upload_200_no_requestException (chunks : List String) (body : Option Json)
    (msg : String) :
    (upload_train_file ⟨200, chunks, body⟩).1 ≠ .error (.requestException msg) := by
  rcases body with _ | j
  · simp [upload_train_file, rjson, ok_bind, error_bind, pure_eq_ok]
  · rcases j with _ | b | n | s | l | fields <;>
      simp only [upload_train_file, rjson, pyIndex, ok_bind, error_bind, pure_eq_ok] <;>
      try simp
    cases hid : findField (.obj fields) "id" <;> simp [hid]

/-- On a 200 response the job-creation path never raises the full-body
request exception. -/
theorem create_200_no_requestException (chunks : List String) (body : Option Json)
    (msg : String) :
    create_finetuning_job ⟨200, chunks, body⟩ ≠ .error (.requestException msg) := by
  rcases body with _ | j
  · simp [create_finetuning_job, rjson, ok_bind, error_bind, pure_eq_ok]
  · rcases j with _ | b | n | s | l | fields <;>
      simp only [create_finetuning_job, rjson, pyIndex, ok_bind, error_bind, pure_eq_ok] <;>
      try simp
    cases hid : findField (.obj fields) "id" <;>
      cases hst : findField (.obj fields) "status" <;>
      simp [hid, hst, ok_bind, error_bind, pure_eq_ok]

/-- On a 200 response the job-query path never raises the full-body
request exception. -/
theorem query_200_no_requestException (chunks : List String) (body : Option Json)
    (msg : String) :
    query_finetuning_job ⟨200, chunks, body⟩ ≠ .error (.requestException msg) := by
  rcases body with _ | j
  · simp [query_finetuning_job, rjson, ok_bind, error_bind, pure_eq_ok]
  · rcases j with _ | b | n | s | l | fields <;>
      simp only [query_finetuning_job, rjson, pyIndex, ok_bind, error_bind, pure_eq_ok] <;>
      try simp
    cases hst : findField (.obj fields) "status" with
    | none => simp [hst, ok_bind, error_bind, pure_eq_ok]
    | some v =>
      cases v <;> simp only [hst, ok_bind, error_bind, pure_eq_ok] <;> try simp
      case str s =>
        by_cases hlow : pyLower s = "succeeded"
        · cases hm : findField (.obj fields) "fine_tuned_model" <;>
            simp [hlow, hm, ok_bind, error_bind, pure_eq_ok]
        · simp [hlow, ok_bind, error_bind, pure_eq_ok]

/-- C2 amended: each of the three operations raises the exception carrying
the newline-joined response body exactly when `status_code ≠ 200`: every
status ≥ 300 fails with it, but so does every 200-class status other than
exactly 200; on status 200 no such exception is produced. -/
theorem c2_error_iff_status_ne_200 (r : HttpResponse) :
    (r.status_code ≠ 200 →
      (upload_train_file r).1 = .error (.requestException (joinedBody r)) ∧
      create_finetuning_job r = .error (.requestException (joinedBody r)) ∧
      query_finetuning_job r = .error (.requestException (joinedBody r))) ∧
    (r.status_code = 200 → ∀ msg,
      (upload_train_file r).1 ≠ .error (.requestException msg) ∧
      create_finetuning_job r ≠ .error (.requestException msg) ∧
      query_finetuning_job r ≠ .error (.requestException msg)) := by
  constructor
  · intro h
    refine ⟨?_, ?_, ?_⟩ <;>
      simp [upload_train_file, create_finetuning_job, query_finetuning_job, h]
  · intro h msg
    rcases r with ⟨code, chunks, body⟩
    simp only at h
    subst h
    exact ⟨upload_200_no_requestException chunks body msg,
           create_200_no_requestException chunks body msg,
           query_200_no_requestException chunks body msg⟩

/-- C2 witness: a 404 response makes all three operations fail with the
exception carrying the joined body chunks. -/
theorem c2_witness :
    (upload_train_file ⟨404, ["not", "found"], none⟩).1 =
      .error (.requestException "not\nfound") ∧
    create_finetuning_job ⟨404, ["not", "found"], none⟩ =
      .error (.requestException "not\nfound") ∧
    query_finetuning_job ⟨404, ["not", "found"], none⟩ =
      .error (.requestException "not\nfound") :=
  (c2_error_iff_status_ne_200 ⟨404, ["not", "found"], none⟩).1 (by decide)

/-- C3 counterexample: a 200 response whose status is "succeeded" but whose
`fine_tuned_model` field is JSON `null` returns an absent model identifier
(Python `None`) together with the status "succeeded", refuting the
"present iff succeeded" biconditional. -/
theorem c3_counterexample :
    query_finetuning_job
      ⟨200, [""], some (.obj [("status", .str "succeeded"), ("fine_tuned_model", .null)])⟩ =
      .ok (.null, .str "succeeded") := rfl

/-- C3 amended: whenever the query returns a pair `(m, s)`, the status `s`
is the body's status string; when its lowercasing differs from "succeeded"
the model `m` is absent (`null`), whether or not the body carries a
`fine_tuned_model` field; when it equals "succeeded" the body's
`fine_tuned_model` field is present and `m` is its value — so `m` is absent
exactly when that value is JSON `null`. -/
theorem c3_model_presence (r : HttpResponse) (m : Json) (t : String)
    (h : query_finetuning_job r = .ok (m, .str t)) :
    (pyLower t ≠ "succeeded" → m = .null) ∧
    (pyLower t = "succeeded" → bodyField r "fine_tuned_model" = some m) := by
  rcases r with ⟨code, chunks, body⟩
  by_cases hcode : code = 200
  · subst hcode
    rcases body with _ | j
    · simp [query_finetuning_job, rjson, ok_bind, error_bind, pure_eq_ok] at h
    · rcases j with _ | b | n | s | l | fields <;>
        simp only [query_finetuning_job, rjson, pyIndex, ok_bind, error_bind,
          pure_eq_ok, reduceIte] at h <;> try simp at h
      rcases hst : findField (.obj fields) "status" with _ | v
      · simp [hst, ok_bind, error_bind, pure_eq_ok] at h
      · rcases v with _ | b | n | s | l | fs <;>
          simp only [hst, ok_bind, error_bind, pure_eq_ok] at h <;> try simp at h
        by_cases hlow : pyLower s = "succeeded"
        · rcases hm : findField (.obj fields) "fine_tuned_model" with _ | v
          · simp [hlow, hm, ok_bind, error_bind, pure_eq_ok] at h
          · simp [hlow, hm, ok_bind, error_bind, pure_eq_ok] at h
            obtain ⟨rfl, rfl⟩ := h
            refine ⟨fun hne => absurd hlow hne, fun _ => ?_⟩
            simpa [bodyField] using hm
        · simp [hlow, ok_bind, error_bind, pure_eq_ok] at h
          obtain ⟨rfl, rfl⟩ := h
          exact ⟨fun _ => rfl, fun heq => absurd heq hlow⟩
  · simp [query_finetuning_job, hcode] at h

/-- C3 witness: on a succeeded response the returned model identifier is the
body's `fine_tuned_model` value. -/
theorem c3_witness :
    bodyField
      ⟨200, [""], some (.obj [("status", .str "succeeded"), ("fine_tuned_model", .str "ft:model-1")])⟩
      "fine_tuned_model" = some (.str "ft:model-1") :=
  (c3_model_presence
    ⟨200, [""], some (.obj [("status", .str "succeeded"), ("fine_tuned_model", .str "ft:model-1")])⟩
    (.str "ft:model-1") "succeeded" rfl).2 rfl

/-- C7 counterexample: a 201 response — a 2xx success status — with a
well-formed body does not make job creation return the `(id, status)` pair;
the code raises because it tests `status_code != 200`. -/
theorem c7_counterexample :
    create_finetuning_job
      ⟨201, ["created"], some (.obj [("id", .str "ftjob-1"), ("status", .str "queued")])⟩ =
      .error (.requestException "created") := rfl

/-- C7 amended: on an HTTP-200 response whose body is a JSON object, job
creation returns the pair of the body's `id` and `status` values when both
are present, raises `KeyError "id"` when `id` is absent, and raises
`KeyError "status"` when `id` is present but `status` absent — the three
cases are exhaustive, so it never returns a pair with a missing component.
(The spec's `ProtocolError` is the `KeyError` of the source.) -/
theorem c7_id_status_contract (chunks : List String) (fields : List (String × Json)) :
    (∀ idv sv, findField (.obj fields) "id" = some idv →
      findField (.obj fields) "status" = some sv →
      create_finetuning_job ⟨200, chunks, some (.obj fields)⟩ = .ok (idv, sv)) ∧
    (findField (.obj fields) "id" = none →
      create_finetuning_job ⟨200, chunks, some (.obj fields)⟩ =
        .error (.keyError "id")) ∧
    (∀ idv, findField (.obj fields) "id" = some idv →
      findField (.obj fields) "status" = none →
      create_finetuning_job ⟨200, chunks, some (.obj fields)⟩ =
        .error (.keyError "status")) := by
  refine ⟨fun idv sv hid hst => ?_, fun hid => ?_, fun idv hid hst => ?_⟩ <;>
    simp [create_finetuning_job, rjson, pyIndex, hid, ok_bind, error_bind,
      pure_eq_ok] <;>
    simp [hst, ok_bind, error_bind, pure_eq_ok]

/-- C7 witness: with both fields present the pair is returned; with `status`
missing a `KeyError` is raised. -/
theorem c7_witness :
    create_finetuning_job
      ⟨200, ["ok"], some (.obj [("id", .str "ftjob-1"), ("status", .str "queued")])⟩ =
      .ok (.str "ftjob-1", .str "queued") ∧
    create_finetuning_job ⟨200, ["ok"], some (.obj [("id", .str "ftjob-1")])⟩ =
      .error (.keyError "status") :=
  ⟨(c7_id_status_contract ["ok"] [("id", .str "ftjob-1"), ("status", .str "queued")]).1
      (.str "ftjob-1") (.str "queued") rfl rfl,
   (c7_id_status_contract ["ok"] [("id", .str "ftjob-1")]).2.2
      (.str "ftjob-1") rfl rfl⟩

/-! ## Conversion lemmas -/

/-- A malformed line anywhere makes the parse comprehension raise the decode
error, whatever the other lines hold. -/
theorem loadDataset_error_of_mem_none (lines : List (Option Json))
    (h : none ∈ lines) : loadDataset lines = .error .jsonDecodeError := by
  induction lines with
  | nil => cases h
  | cons l rest ih =>
    cases l with
    | none => rfl
    | some j =>
      have hr : none ∈ rest := by
        rcases List.mem_cons.mp h with h1 | h2
        · simp at h1
        · exact h2
      simp [loadDataset, ih hr, error_bind]

/-- Parsing a list of lines that all parse succeeds with the parsed records. -/
theorem loadDataset_map_some (ds : List Json) :
    loadDataset (ds.map some) = .ok ds := by
  induction ds with
  | nil => rfl
  | cons j rest ih => simp [loadDataset, ih, ok_bind, pure_eq_ok]

/-- On a message object the loop body computes exactly the claim-level
`keptMessage` projection, without error. -/
theorem processMessage_eq_keptMessage (m : Json) (h : isObj m = true) :
    processMessage m = .ok (keptMessage m) := by
  cases m <;> simp [isObj] at h
  case obj fields =>
    rcases hr : findField (.obj fields) "role" with _ | v
    · simp [processMessage, pyGet, hr, keptMessage, ok_bind, pure_eq_ok, recognizedRole]
    · rcases v with _ | b | n | s | l | fs <;>
        simp [processMessage, pyGet, hr, keptMessage, ok_bind, pure_eq_ok]
      all_goals (by_cases hrec : recognizedRole s <;> simp [hrec])

/-- On a list of message objects the message loop returns exactly the
filtered projections, in order. -/
theorem processMessages_filterMap (msgs : List Json) (h : msgs.all isObj = true) :
    processMessages msgs = .ok (msgs.filterMap keptMessage) := by
  induction msgs with
  | nil => rfl
  | cons m rest ih =>
    simp only [List.all_cons, Bool.and_eq_true] at h
    rcases hk : keptMessage m with _ | mm <;>
      simp [processMessages, processMessage_eq_keptMessage m h.1, hk, ih h.2,
        ok_bind, pure_eq_ok, List.filterMap_cons]

/-- On a good line the record loop body computes exactly the claim-level
converted record. -/
theorem processRecord_good (j : Json) (h : goodLine (some j) = true) :
    processRecord j = .ok (convertedRecord (some j)) := by
  unfold goodLine at h
  rw [Bool.and_eq_true] at h
  obtain ⟨hobj, hmsg⟩ := h
  cases j <;> simp [isObj] at hobj
  case obj fields =>
    rcases hf : findField (.obj fields) "messages" with _ | v
    · simp [processRecord, pyGet, hf, pyIter, processMessages, convertedRecord,
        messagesOf, ok_bind, pure_eq_ok]
    · rw [hf] at hmsg
      rcases v with _ | b | n | s | l | fs <;> simp at hmsg
      simp [processRecord, pyGet, hf, pyIter,
        processMessages_filterMap l (by simpa using hmsg),
        convertedRecord, messagesOf, ok_bind, pure_eq_ok]

/-- The whole conversion, on good input, is the map of the claim-level
record conversion. -/
theorem convert_file_format_good (lines : List (Option Json)) :
    lines.all goodLine = true →
    convert_file_format lines = .ok (lines.map convertedRecord) := by
  induction lines with
  | nil => intro h; rfl
  | cons l rest ih =>
    intro h
    simp only [List.all_cons, Bool.and_eq_true] at h
    obtain ⟨hl, hrest⟩ := h
    rcases l with _ | j
    · simp [goodLine] at hl
    · have ihr := ih hrest
      rcases hld : loadDataset rest with e | ds
      · rw [convert_file_format, hld, error_bind] at ihr
        cases ihr
      · rw [convert_file_format, hld, ok_bind] at ihr
        simp [convert_file_format, loadDataset, hld, ok_bind, pure_eq_ok,
          convertRecords, processRecord_good j hl, ihr]

/-! ## Theorems for the conversion claims -/

/-- C4 counterexample: lines that parse as JSON but not to the expected
record shape crash the conversion instead of producing one output record per
line: a non-object record (the JSON number `42`), a record whose messages
array holds a non-object (`5`), and a record whose `messages` value is not
an array (`3`) all raise. -/
theorem c4_counterexample :
    convert_file_format [some (.num 42)] = .error .attributeError ∧
    convert_file_format [some (.obj [("messages", .arr [.num 5])])] =
      .error .attributeError ∧
    convert_file_format [some (.obj [("messages", .num 3)])] =
      .error .typeError :=
  ⟨rfl, rfl, rfl⟩

/-- C4 amended: for every input whose lines all parse as JSON objects in
which the `messages` field, when present, is an array of objects, the
conversion succeeds and produces exactly one record per input line, in input
order, each holding exactly the record's messages whose `role` value is one
of system/user/assistant — in their original order, projected to role and
content — while the other messages are removed. -/
theorem c4_conversion_filters (lines : List (Option Json))
    (h : lines.all goodLine = true) :
    convert_file_format lines = .ok (lines.map convertedRecord) ∧
    (lines.map convertedRecord).length = lines.length :=
  ⟨convert_file_format_good lines h, by simp⟩

/-- C4 witness: the spec's end-to-end example — the `tool` message of the
first record is dropped, everything else is kept in order, two records in,
two records out. -/
theorem c4_witness :
    convert_file_format
      [some (.obj [("messages", .arr
        [.obj [("role", .str "system"), ("content", .str "S")],
         .obj [("role", .str "user"), ("content", .str "Hi")],
         .obj [("role", .str "tool"), ("content", .str "X")],
         .obj [("role", .str "assistant"), ("content", .str "Hello")]])]),
       some (.obj [("messages", .arr
        [.obj [("role", .str "user"), ("content", .str "Q")],
         .obj [("role", .str "assistant"), ("content", .str "A")]])])] =
      .ok
        [.obj [("messages", .arr
          [.obj [("role", .str "system"), ("content", .str "S")],
           .obj [("role", .str "user"), ("content", .str "Hi")],
           .obj [("role", .str "assistant"), ("content", .str "Hello")]])],
         .obj [("messages", .arr
          [.obj [("role", .str "user"), ("content", .str "Q")],
           .obj [("role", .str "assistant"), ("content", .str "A")]])]] :=
  (c4_conversion_filters
      [some (.obj [("messages", .arr
        [.obj [("role", .str "system"), ("content", .str "S")],
         .obj [("role", .str "user"), ("content", .str "Hi")],
         .obj [("role", .str "tool"), ("content", .str "X")],
         .obj [("role", .str "assistant"), ("content", .str "Hello")]])]),
       some (.obj [("messages", .arr
        [.obj [("role", .str "user"), ("content", .str "Q")],
         .obj [("role", .str "assistant"), ("content", .str "A")]])])] rfl).1

/-- C5 counterexample: the conversion fails with the same error value
whether the malformed line is line 2 of two or line 3 of three, so the
raised error cannot name the offending line number, and it is the generic
decode error of the standard library, not a dedicated data-format error. -/
theorem c5_counterexample :
    convert_file_format [some (.obj []), none] = .error .jsonDecodeError ∧
    convert_file_format [some (.obj []), some (.obj []), none] =
      .error .jsonDecodeError :=
  ⟨rfl, rfl⟩

/-- C5 amended: an input containing a line that does not parse as JSON makes
the conversion fail as a whole — no partial converted dataset is returned —
but with the underlying JSON decode error, which does not name the offending
file line number. -/
theorem c5_malformed_line_fails_whole (lines : List (Option Json))
    (h : none ∈ lines) :
    convert_file_format lines = .error .jsonDecodeError := by
  rw [convert_file_format, loadDataset_error_of_mem_none lines h, error_bind]

/-- C5 witness: a single malformed line fails the conversion. -/
theorem c5_witness :
    convert_file_format [none] = .error .jsonDecodeError :=
  c5_malformed_line_fails_whole [none] (List.Mem.head _)

/-! ## Idempotence lemmas -/

/-- A well-formed message passes the filter unchanged. -/
theorem processMessage_wf (m : Json) (h : wfMessage m = true) :
    processMessage m = .ok (some m) := by
  unfold wfMessage at h
  split at h
  next r c =>
    simp [processMessage, pyGet, findField, h, ok_bind, pure_eq_ok]
  next => simp at h

/-- A list of well-formed messages passes the filter unchanged. -/
theorem processMessages_wf (msgs : List Json) (h : msgs.all wfMessage = true) :
    processMessages msgs = .ok msgs := by
  induction msgs with
  | nil => rfl
  | cons m rest ih =>
    simp only [List.all_cons, Bool.and_eq_true] at h
    simp [processMessages, processMessage_wf m h.1, ih h.2, ok_bind, pure_eq_ok]

/-- A well-formed record is reassembled into itself. -/
theorem processRecord_wf (j : Json) (h : wfRecord j = true) :
    processRecord j = .ok j := by
  unfold wfRecord at h
  split at h
  next msgs =>
    simp [processRecord, pyGet, findField, pyIter, processMessages_wf msgs h,
      ok_bind, pure_eq_ok]
  next => simp at h

/-- A well-formed dataset is reassembled into itself. -/
theorem convertRecords_wf (ds : List Json) (h : wfDataset ds = true) :
    convertRecords ds = .ok ds := by
  induction ds with
  | nil => rfl
  | cons r rest ih =>
    simp only [wfDataset, List.all_cons, Bool.and_eq_true] at h
    simp [convertRecords, processRecord_wf r h.1, ih h.2, ok_bind, pure_eq_ok]

/-- C6: converting an already-well-formed dataset — records that are exactly
`{"messages": [...]}` whose messages are exactly `{"role", "content"}` pairs
with recognized roles — reproduces the dataset itself, every message kept
with its role and content in the original order; hence converting the output
of such a conversion equals converting once. -/
theorem c6_conversion_idempotent (ds : List Json) (h : wfDataset ds = true) :
    convert_file_format (ds.map some) = .ok ds := by
  rw [convert_file_format, loadDataset_map_some, ok_bind, convertRecords_wf ds h]

/-- C6 witness: a two-message well-formed record converts to itself. -/
theorem c6_witness :
    convert_file_format
      ([Json.obj [("messages", .arr
        [.obj [("role", .str "user"), ("content", .str "Q")],
         .obj [("role", .str "assistant"), ("content", .str "A")]])]].map some) =
      .ok
        [Json.obj [("messages", .arr
          [.obj [("role", .str "user"), ("content", .str "Q")],
           .obj [("role", .str "assistant"), ("content", .str "A")]])]] :=
  c6_conversion_idempotent _ rfl

end OpenAIModule
